import Mathlib

/-!
Verification development for a minimal menu-item HTTP service
(`src/main.py`): list with optional filters, create, one-time seed,
and a diagnostic route, backed by a document store.

The store adapter (`database.py`) and the response schema
(`schemas.py`) are imported by `main.py` but are not part of the
available sources; they are modelled from the specification
(sections 3 and 4.1).  Everything else is translated from
`src/main.py` directly.
-/

namespace McMenu

/-- A JSON-like value stored in a document field: numbers are
rationals (JSON has a single number type). -/
inductive Value where
  | str (s : String)
  | num (q : ℚ)
  | boolean (b : Bool)
  | null
deriving DecidableEq, Repr

/-- A document: a finite mapping from field names to values,
represented as an association list (first binding wins). -/
abbrev Doc := List (String × Value)

/-- Look up a field of a document. -/
def Doc.lookupField (d : Doc) (k : String) : Option Value :=
  match d with
  | [] => none
  | (k₂, v) :: rest => if k₂ = k then some v else Doc.lookupField rest k

/-- Remove every binding of field `k` (the effect of Python's
`doc.pop(k, None)` on the mapping). -/
def Doc.eraseField (d : Doc) (k : String) : Doc :=
  d.filter (fun kv => kv.1 ≠ k)

/-- An exact-match filter: a mapping from field name to required value. -/
abbrev Filter := List (String × Value)

/-- A document matches an exact-match filter when every filter entry is
present in the document with exactly the required value; the empty
filter matches everything (spec section 4.1). -/
def matchesFilter (f : Filter) (d : Doc) : Bool :=
  f.all (fun kv => Doc.lookupField d kv.1 = some kv.2)

/-- Modelled from the spec: the document database behind the missing
`database.py` adapter — named collections of documents plus a counter
used to mint store-generated unique identifiers. -/
structure DB where
  collections : List (String × List Doc)
  nextId : ℕ
deriving DecidableEq, Repr

/-- Find a named collection in the store (empty when absent). -/
def collFind (cols : List (String × List Doc)) (name : String) :
    List Doc :=
  match cols with
  | [] => []
  | (n, ds) :: rest => if n = name then ds else collFind rest name

/-- The documents of a named collection (empty when absent). -/
def DB.coll (db : DB) (name : String) : List Doc :=
  collFind db.collections name

/-- Replace the named collection (creating it when absent). -/
def collSet (cols : List (String × List Doc)) (name : String)
    (docs : List Doc) : List (String × List Doc) :=
  match cols with
  | [] => [(name, docs)]
  | (n, ds) :: rest =>
    if n = name then (n, docs) :: rest else (n, ds) :: collSet rest name docs

/-- Replace (or create) the named collection of the store. -/
def DB.setColl (db : DB) (name : String) (docs : List Doc) : DB :=
  { db with collections := collSet db.collections name docs }

/-- Modelled from the spec: `create_document(collection, record)` of the
missing `database.py` — inserts the record into the named collection,
attaching a store-generated unique identifier under `_id`, and returns
that identifier as a string (spec section 4.1). -/
def create_document (db : DB) (collection : String) (record : Doc) :
    String × DB :=
  let newId := toString db.nextId
  let stored := ("_id", Value.str newId) :: record
  (newId,
   { db.setColl collection (db.coll collection ++ [stored]) with
     nextId := db.nextId + 1 })

/-- Modelled from the spec: `get_documents(collection, filter, limit)` of
the missing `database.py` — up to `limit` records of the collection
matching the exact-match filter (spec section 4.1). -/
def get_documents (db : DB) (collection : String) (f : Filter)
    (limit : ℕ) : List Doc :=
  ((db.coll collection).filter (matchesFilter f)).take limit

/-- `db["menuitem"].count_documents({})` as used by the seed handler:
the number of documents in the collection (empty filter). -/
def count_documents (db : DB) (collection : String) : ℕ :=
  (db.coll collection).length

/-- Modelled from the spec: the `MenuItem` response model of the missing
`schemas.py` — field names, types, optionality and defaults of a menu
item (spec section 3, matching the creation shape of `main.py`). -/
structure MenuItem where
  name : String
  description : Option String := none
  price : ℚ
  category : String
  image : Option String := none
  is_featured : Bool := false
  calories : Option ℤ := none
  spicy_level : Option ℤ := none
deriving DecidableEq, Repr

/-- `MenuItemCreate` from `main.py`: the request body shape of
`POST /api/menu` — `name`, `price`, `category` required,
`is_featured` defaulting to `False`, the rest optional. -/
structure MenuItemCreate where
  name : String
  description : Option String := none
  price : ℚ
  category : String
  image : Option String := none
  is_featured : Bool := false
  calories : Option ℤ := none
  spicy_level : Option ℤ := none
deriving DecidableEq, Repr

/-- Parse a required string field (absent or non-string fails). -/
def parseStr : Option Value → Option String
  | some (Value.str s) => some s
  | _ => none

/-- Parse an optional string field: absent or JSON null yields `none`. -/
def parseOptStr : Option Value → Option (Option String)
  | none => some none
  | some Value.null => some none
  | some (Value.str s) => some (some s)
  | _ => none

/-- Parse a required number field. -/
def parseNum : Option Value → Option ℚ
  | some (Value.num q) => some q
  | _ => none

/-- Parse an optional integer field: absent or null yields `none`;
a number must be integral. -/
def parseOptInt : Option Value → Option (Option ℤ)
  | none => some none
  | some Value.null => some none
  | some (Value.num q) => if q.den = 1 then some (some q.num) else none
  | _ => none

/-- Parse an optional boolean field with a default (pydantic:
`is_featured: bool = False`). -/
def parseBoolDefault (dflt : Bool) : Option Value → Option Bool
  | none => some dflt
  | some (Value.boolean b) => some b
  | _ => none

/-- Request-body validation of `POST /api/menu` against the
`MenuItemCreate` declaration: every required field must be present with
the declared type, optional fields default as declared.  Performed by
the framework before the handler body runs. -/
def validate_create (body : Doc) : Option MenuItemCreate := do
  let name ← parseStr (body.lookupField "name")
  let description ← parseOptStr (body.lookupField "description")
  let price ← parseNum (body.lookupField "price")
  let category ← parseStr (body.lookupField "category")
  let image ← parseOptStr (body.lookupField "image")
  let isFeat ← parseBoolDefault false (body.lookupField "is_featured")
  let calories ← parseOptInt (body.lookupField "calories")
  let spicy ← parseOptInt (body.lookupField "spicy_level")
  pure { name := name, description := description, price := price,
         category := category, image := image, is_featured := isFeat,
         calories := calories, spicy_level := spicy }

/-- `item.dict()`: the document inserted by the create handler — every
declared field, defaults included, optional absences as JSON null. -/
def MenuItemCreate.toDoc (item : MenuItemCreate) : Doc :=
  [ ("name", Value.str item.name),
    ("description",
      (item.description.map Value.str).getD Value.null),
    ("price", Value.num item.price),
    ("category", Value.str item.category),
    ("image", (item.image.map Value.str).getD Value.null),
    ("is_featured", Value.boolean item.is_featured),
    ("calories",
      (item.calories.map (fun n => Value.num (n : ℚ))).getD Value.null),
    ("spicy_level",
      (item.spicy_level.map (fun n => Value.num (n : ℚ))).getD Value.null) ]

/-- `MenuItem(**doc)` of the list handler: validate a stored document
against the `MenuItem` shape (pydantic ignores unknown keys such as a
leftover `_id`). -/
def validateMenuItem (d : Doc) : Option MenuItem := do
  let name ← parseStr (d.lookupField "name")
  let description ← parseOptStr (d.lookupField "description")
  let price ← parseNum (d.lookupField "price")
  let category ← parseStr (d.lookupField "category")
  let image ← parseOptStr (d.lookupField "image")
  let isFeat ← parseBoolDefault false (d.lookupField "is_featured")
  let calories ← parseOptInt (d.lookupField "calories")
  let spicy ← parseOptInt (d.lookupField "spicy_level")
  pure { name := name, description := description, price := price,
         category := category, image := image, is_featured := isFeat,
         calories := calories, spicy_level := spicy }

/-- Serialization of a validated `MenuItem` back to JSON by the
framework (`response_model=List[MenuItem]`): exactly the schema
fields. -/
def MenuItem.toJson (m : MenuItem) : Doc :=
  [ ("name", Value.str m.name),
    ("description", (m.description.map Value.str).getD Value.null),
    ("price", Value.num m.price),
    ("category", Value.str m.category),
    ("image", (m.image.map Value.str).getD Value.null),
    ("is_featured", Value.boolean m.is_featured),
    ("calories",
      (m.calories.map (fun n => Value.num (n : ℚ))).getD Value.null),
    ("spicy_level",
      (m.spicy_level.map (fun n => Value.num (n : ℚ))).getD Value.null) ]

/-- Outcome of a store call, as seen by a handler: the result, or a
raised exception carrying its message (`str(e)`). -/
inductive StoreResult (α : Type) where
  | ok (a : α)
  | raised (msg : String)
deriving DecidableEq, Repr

/-- The execution environment of one request: whether the process-wide
store handle `db` is initialized (`db is not None`), the store
contents, and fault switches making the individual store calls raise
(spec section 4.1: operations fail by propagating the underlying store
error). -/
structure Env where
  available : Bool
  db : DB
  getFail : Option String := none
  createFail : Option String := none
  countFail : Option String := none
deriving DecidableEq, Repr

/-- `get_documents` as called from a handler: raises when the
underlying store fails. -/
def Env.getDocuments (env : Env) (collection : String) (f : Filter)
    (limit : ℕ) : StoreResult (List Doc) :=
  match env.getFail with
  | some m => .raised m
  | none => .ok (get_documents env.db collection f limit)

/-- `create_document` as called from a handler: raises when the
underlying store fails (no write happens then). -/
def Env.createDocument (env : Env) (collection : String) (record : Doc) :
    StoreResult (String × DB) :=
  match env.createFail with
  | some m => .raised m
  | none => .ok (create_document env.db collection record)

/-- `count_documents` as called from the seed handler. -/
def Env.countDocuments (env : Env) (collection : String) :
    StoreResult ℕ :=
  match env.countFail with
  | some m => .raised m
  | none => .ok (count_documents env.db collection)

/-- What a handler invocation produces at the HTTP boundary: a body
with a status code, a raised `HTTPException` (status and detail), or an
exception escaping the handler uncaught. -/
inductive HResult (α : Type) where
  | ok (status : ℕ) (body : α)
  | httpError (status : ℕ) (detail : String)
  | uncaught (msg : String)
deriving DecidableEq, Repr

/-- `if category:` — Python truthiness of the optional string parameter
(false for both `None` and the empty string). -/
def pyTruthy : Option String → Bool
  | none => false
  | some s => s ≠ ""

/-- The `filter_dict` built by `list_menu`: `category` added under
Python truthiness, `is_featured` added when `featured is not None`. -/
def build_filter (category : Option String) (featured : Option Bool) :
    Filter :=
  (match category with
   | some c => if c ≠ "" then [("category", Value.str c)] else []
   | none => []) ++
  (match featured with
   | some b => [("is_featured", Value.boolean b)]
   | none => [])

/-- The effective query limit of `GET /api/menu`: the `limit` query
parameter, defaulting to 100 when absent (`limit: int = 100`). -/
def effectiveLimit (limit : Option ℕ) : ℕ :=
  limit.getD 100

/-- `GET /api/menu` (`list_menu` in `main.py`): availability gate, then
`get_documents("menuitem", filter_dict, limit)` — with no `try` around
it — then `_id` stripping, per-document `MenuItem(**doc)` validation
and serialization. -/
def list_menu (env : Env) (category : Option String)
    (featured : Option Bool) (limit : Option ℕ) : HResult (List Doc) :=
  if env.available = false then
    .httpError 500 "Database not configured"
  else
    match env.getDocuments "menuitem" (build_filter category featured)
        (effectiveLimit limit) with
    | .raised m => .uncaught m
    | .ok items =>
      let stripped := items.map (fun d => d.eraseField "_id")
      match stripped.mapM validateMenuItem with
      | none => .uncaught "validation error"
      | some ms => .ok 200 (ms.map MenuItem.toJson)

/-- `POST /api/menu` handler body (`create_menu_item` in `main.py`):
availability gate, then `create_document` inside `try`, converting a
store error to `HTTPException(500, str(e))`; returns the pair of the
HTTP outcome and the store state after the call. -/
def create_menu_item (env : Env) (item : MenuItemCreate) :
    HResult Doc × DB :=
  if env.available = false then
    (.httpError 500 "Database not configured", env.db)
  else
    match env.createDocument "menuitem" item.toDoc with
    | .raised m => (.httpError 500 m, env.db)
    | .ok (newId, db2) => (.ok 201 [("id", Value.str newId)], db2)

/-- The full `POST /api/menu` route: framework validation of the raw
body against `MenuItemCreate` first (a 422 client error on failure,
before the handler body runs), then the handler. -/
def route_create_menu_item (env : Env) (body : Doc) :
    HResult Doc × DB :=
  match validate_create body with
  | none => (.httpError 422 "validation error", env.db)
  | some item => create_menu_item env item

/-- The six hard-coded sample documents of `seed_menu`. -/
def seedSamples : List Doc :=
  [ [ ("name", Value.str "Big Mac"),
      ("description", Value.str
        "Two 100% beef patties, special sauce, lettuce, cheese, pickles, onions on a sesame seed bun."),
      ("price", Value.num (599 / 100)),
      ("category", Value.str "Burgers"),
      ("image", Value.str
        "https://images.unsplash.com/photo-1550547660-d9450f859349?w=1200"),
      ("is_featured", Value.boolean true),
      ("calories", Value.num 550),
      ("spicy_level", Value.num 0) ],
    [ ("name", Value.str "McChicken"),
      ("description", Value.str
        "Crispy chicken topped with shredded lettuce and mayonnaise on a toasted bun."),
      ("price", Value.num (349 / 100)),
      ("category", Value.str "Chicken"),
      ("image", Value.str
        "https://images.unsplash.com/photo-1561758033-d89a9ad46330?w=1200"),
      ("is_featured", Value.boolean false),
      ("calories", Value.num 400),
      ("spicy_level", Value.num 0) ],
    [ ("name", Value.str "World-Famous Fries"),
      ("description", Value.str
        "Golden, crispy and perfectly salted fries."),
      ("price", Value.num (229 / 100)),
      ("category", Value.str "Sides"),
      ("image", Value.str
        "https://images.unsplash.com/photo-1550547660-31633d40d0a0?w=1200"),
      ("is_featured", Value.boolean true),
      ("calories", Value.num 230),
      ("spicy_level", Value.num 0) ],
    [ ("name", Value.str "Spicy McNuggets (10 pc)"),
      ("description", Value.str
        "Tender, juicy chicken with a spicy tempura coating."),
      ("price", Value.num (499 / 100)),
      ("category", Value.str "Chicken"),
      ("image", Value.str
        "https://images.unsplash.com/photo-1608039829579-8790f8d5a1f7?w=1200"),
      ("is_featured", Value.boolean true),
      ("calories", Value.num 420),
      ("spicy_level", Value.num 3) ],
    [ ("name", Value.str "McFlurry Oreo"),
      ("description", Value.str
        "Vanilla soft serve blended with Oreo cookie pieces."),
      ("price", Value.num (299 / 100)),
      ("category", Value.str "Desserts"),
      ("image", Value.str
        "https://images.unsplash.com/photo-1461009683693-342af2f2d6ce?w=1200"),
      ("is_featured", Value.boolean false),
      ("calories", Value.num 510),
      ("spicy_level", Value.num 0) ],
    [ ("name", Value.str "Caramel Iced Coffee"),
      ("description", Value.str
        "Premium roast coffee over ice with caramel flavor and cream."),
      ("price", Value.num (249 / 100)),
      ("category", Value.str "Drinks"),
      ("image", Value.str
        "https://images.unsplash.com/photo-1511920170033-f8396924c348?w=1200"),
      ("is_featured", Value.boolean false),
      ("calories", Value.num 180),
      ("spicy_level", Value.num 0) ] ]

/-- The `for s in samples: create_document("menuitem", s)` loop,
threading the store state; a failing store call raises out of the
loop. -/
def insertAll (createFail : Option String) (docs : List Doc) (db : DB) :
    StoreResult DB :=
  match docs with
  | [] => .ok db
  | d :: rest =>
    match createFail with
    | some m => .raised m
    | none => insertAll createFail rest (create_document db "menuitem" d).2

/-- `POST /api/menu/seed` (`seed_menu` in `main.py`): availability
gate, `count_documents({})`, early `"exists"` return when non-empty,
otherwise insert the six samples — no `try` around any store call —
and report `"seeded"` with `len(samples)`. -/
def seed_menu (env : Env) : HResult Doc × DB :=
  if env.available = false then
    (.httpError 500 "Database not configured", env.db)
  else
    match env.countDocuments "menuitem" with
    | .raised m => (.uncaught m, env.db)
    | .ok existing =>
      if existing > 0 then
        (.ok 200 [("status", Value.str "exists"),
                  ("count", Value.num existing)], env.db)
      else
        match insertAll env.createFail seedSamples env.db with
        | .raised m => (.uncaught m, env.db)
        | .ok db2 =>
          (.ok 200 [("status", Value.str "seeded"),
                    ("count", Value.num seedSamples.length)], db2)

/-- The environment of one `GET /test` request: the store handle and
its observable state, plus whether the configuration environment
variables are set. -/
structure TestEnv where
  available : Bool
  dbName : Option String := none
  collectionNames : List String := []
  listCollFail : Option String := none
  envUrlSet : Bool
  envNameSet : Bool
deriving DecidableEq, Repr

/-- The diagnostic JSON object returned by `GET /test`. -/
structure TestResponse where
  backend : String
  database : String
  database_url : Option String
  database_name : Option String
  connection_status : String
  collectionsField : List String
deriving DecidableEq, Repr

/-- `GET /test` (`test_database` in `main.py`): builds the diagnostic
response, catching the collection-listing error into a truncated status
string, then unconditionally overwrites `database_url` and
`database_name` from the environment variables. -/
def test_database (env : TestEnv) : TestResponse :=
  let r0 : TestResponse :=
    { backend := "✅ Running", database := "❌ Not Available",
      database_url := none, database_name := none,
      connection_status := "Not Connected", collectionsField := [] }
  let r1 :=
    if env.available then
      let r := { r0 with
        database := "✅ Available",
        database_url := some "✅ Configured",
        database_name := some (env.dbName.getD "✅ Connected"),
        connection_status := "Connected" }
      match env.listCollFail with
      | none => { r with collectionsField := env.collectionNames.take 10,
                         database := "✅ Connected & Working" }
      | some e => { r with
          database := "⚠️  Connected but Error: " ++ e.take 50 }
    else
      { r0 with database := "⚠️  Available but not initialized" }
  { r1 with
    database_url := some (if env.envUrlSet then "✅ Set" else "❌ Not Set"),
    database_name := some (if env.envNameSet then "✅ Set" else "❌ Not Set") }

/-- The `GET /test` route at the HTTP boundary: the handler catches
every store error internally, so the route always answers 200. -/
def test_route (env : TestEnv) : HResult TestResponse :=
  .ok 200 (test_database env)

/-! ### Concrete inputs used by witnesses and counterexamples -/

/-- The empty store. -/
def emptyDB : DB := { collections := [], nextId := 0 }

/-- A fresh, available environment over the empty store. -/
def freshEnv : Env := { available := true, db := emptyDB }

/-- An environment whose store handle is `None`. -/
def downEnv : Env := { available := false, db := emptyDB }

/-- An available environment whose every store call raises `"boom"`. -/
def allFailEnv : Env :=
  { available := true, db := emptyDB, getFail := some "boom",
    createFail := some "boom", countFail := some "boom" }

/-- An available environment over the empty store whose counting
succeeds but whose inserts raise `"boom"`. -/
def insertFailEnv : Env :=
  { available := true, db := emptyDB, createFail := some "boom" }

/-- The creation body of spec section 8:
`{"name": "Test", "price": 1.0, "category": "Test"}`. -/
def sampleBody : Doc :=
  [("name", Value.str "Test"), ("price", Value.num 1),
   ("category", Value.str "Test")]

/-- What `sampleBody` validates to. -/
def sampleItem : MenuItemCreate :=
  { name := "Test", price := 1, category := "Test" }

/-- `sampleBody` without its required `price` field. -/
def noPriceBody : Doc :=
  [("name", Value.str "Test"), ("category", Value.str "Test")]

/-- A creation body whose price is negative. -/
def mkPriceBody (q : ℚ) : Doc :=
  [("name", Value.str "Test"), ("price", Value.num q),
   ("category", Value.str "Test")]

/-- A store holding one stored menu document (with its internal
`_id`). -/
def oneItemDB : DB :=
  { collections := [("menuitem",
      [[("_id", Value.str "0"), ("name", Value.str "Test"),
        ("price", Value.num 1), ("category", Value.str "Test")]])],
    nextId := 1 }

/-- An available environment over `oneItemDB`. -/
def oneItemEnv : Env := { available := true, db := oneItemDB }

/-! ### Helper lemmas about the store model -/

theorem collFind_collSet (cols : List (String × List Doc))
    (name : String) (docs : List Doc) :
    collFind (collSet cols name docs) name = docs := by
  induction cols with
  | nil => simp [collSet, collFind]
  | cons hd tl ih =>
    obtain ⟨n, ds⟩ := hd
    by_cases h : n = name
    · simp [collSet, collFind, h]
    · simp [collSet, collFind, h, ih]

theorem create_document_coll (db : DB) (c : String) (r : Doc) :
    (create_document db c r).2.coll c =
      db.coll c ++ [("_id", Value.str (toString db.nextId)) :: r] := by
  simp [create_document, DB.coll, DB.setColl, collFind_collSet]

theorem create_document_nextId (db : DB) (c : String) (r : Doc) :
    (create_document db c r).2.nextId = db.nextId + 1 := rfl

/-- The `_id`-stamped documents produced by consecutive inserts
starting from identifier counter `n`. -/
def stampIds : List Doc → ℕ → List Doc
  | [], _ => []
  | d :: rest, n =>
    (("_id", Value.str (toString n)) :: d) :: stampIds rest (n + 1)

theorem stampIds_length (docs : List Doc) (n : ℕ) :
    (stampIds docs n).length = docs.length := by
  induction docs generalizing n with
  | nil => rfl
  | cons d rest ih => simp [stampIds, ih]

theorem stampIds_lookup (docs : List Doc) (n : ℕ) (k : String)
    (hk : k ≠ "_id") :
    (stampIds docs n).map (fun d => d.lookupField k) =
      docs.map (fun d => d.lookupField k) := by
  induction docs generalizing n with
  | nil => rfl
  | cons d rest ih =>
    simp [stampIds, Doc.lookupField, fun m => ih m, Ne.symm hk]

theorem insertAll_none_coll (docs : List Doc) (db : DB) :
    ∃ db2, insertAll none docs db = .ok db2 ∧
      db2.coll "menuitem" = db.coll "menuitem" ++ stampIds docs db.nextId := by
  induction docs generalizing db with
  | nil => exact ⟨db, rfl, by simp [stampIds]⟩
  | cons d rest ih =>
    obtain ⟨db2, h1, h2⟩ := ih (create_document db "menuitem" d).2
    refine ⟨db2, by simpa [insertAll] using h1, ?_⟩
    rw [h2, create_document_coll, create_document_nextId]
    simp [stampIds]

/-! ### Claim theorems -/

/-- Claim C7: every store-touching route (`GET /api/menu`,
`POST /api/menu`, `POST /api/menu/seed`) checks the availability gate
first; with the store handle unavailable it answers HTTP 500 with the
fixed detail "Database not configured" and performs no store operation
(the store state is untouched). -/
theorem C7_availability_gate (env : Env) (category : Option String)
    (featured : Option Bool) (limit : Option ℕ) (item : MenuItemCreate)
    (h : env.available = false) :
    list_menu env category featured limit =
      .httpError 500 "Database not configured" ∧
    create_menu_item env item =
      (.httpError 500 "Database not configured", env.db) ∧
    seed_menu env = (.httpError 500 "Database not configured", env.db) := by
  refine ⟨?_, ?_, ?_⟩ <;> simp [list_menu, create_menu_item, seed_menu, h]

/-- Witness for C7 at a concrete unavailable environment. -/
theorem C7_availability_gate_witness :
    list_menu downEnv none none none =
      .httpError 500 "Database not configured" ∧
    create_menu_item downEnv sampleItem =
      (.httpError 500 "Database not configured", downEnv.db) ∧
    seed_menu downEnv = (.httpError 500 "Database not configured", downEnv.db) :=
  C7_availability_gate downEnv none none none sampleItem rfl

/-- Claim C10: the `database_url` and `database_name` fields of the
`GET /test` response depend only on whether the configuration
environment variables are set — the final assignments overwrite
anything set while probing the connection, so two executions agreeing
on the environment variables agree on those two fields regardless of
the store state. -/
theorem C10_env_fields_noninterference (e1 e2 : TestEnv)
    (hu : e1.envUrlSet = e2.envUrlSet)
    (hn : e1.envNameSet = e2.envNameSet) :
    (test_database e1).database_url = (test_database e2).database_url ∧
    (test_database e1).database_name = (test_database e2).database_name := by
  constructor <;> simp [test_database, hu, hn]

/-- A connected diagnostic environment; `DATABASE_URL` set,
`DATABASE_NAME` unset. -/
def testEnvUp : TestEnv :=
  { available := true, dbName := some "mcdb",
    collectionNames := ["menuitem"], envUrlSet := true, envNameSet := false }

/-- A disconnected diagnostic environment with the same environment
variables as `testEnvUp`. -/
def testEnvDown : TestEnv :=
  { available := false, listCollFail := some "down",
    envUrlSet := true, envNameSet := false }

/-- A connected diagnostic environment whose collection listing raises
an 80-character error message. -/
def testEnvErr : TestEnv :=
  { available := true, listCollFail := some (String.mk (List.replicate 80 'x')),
    envUrlSet := false, envNameSet := false }

/-- Witness for C10: equal environment flags, maximally different store
states. -/
theorem C10_env_fields_noninterference_witness :
    (test_database testEnvUp).database_url =
      (test_database testEnvDown).database_url ∧
    (test_database testEnvUp).database_name =
      (test_database testEnvDown).database_name :=
  C10_env_fields_noninterference testEnvUp testEnvDown rfl rfl

/-- Counterexample to claim C2 as stated: with `category` provided as
the empty string (non-null), the filter built by `list_menu` does not
contain the key `"category"` — Python's `if category:` treats the
empty string like an absent parameter. -/
theorem C2_filter_counterexample :
    Doc.lookupField (build_filter (some "") none) "category" = none ∧
    (some "" : Option String) ≠ none := by
  exact ⟨rfl, by decide⟩

/-- Claim C2 (amended): the filter contains `"category"` exactly when
the category parameter is provided with a non-empty string (Python
truthiness), contains `"is_featured"` exactly when `featured` is
provided and non-null, and the query limit is the `limit` parameter,
defaulting to 100 when absent. -/
theorem C2_filter_construction (category : Option String)
    (featured : Option Bool) (n : ℕ) :
    (Doc.lookupField (build_filter category featured) "category").isSome =
      pyTruthy category ∧
    (Doc.lookupField (build_filter category featured) "is_featured").isSome =
      featured.isSome ∧
    effectiveLimit none = 100 ∧ effectiveLimit (some n) = n := by
  refine ⟨?_, ?_, rfl, rfl⟩
  · rcases category with _ | c
    · rcases featured with _ | b <;> simp [build_filter, pyTruthy, Doc.lookupField]
    · by_cases hc : c = "" <;>
        rcases featured with _ | b <;>
          simp [build_filter, pyTruthy, Doc.lookupField, hc]
  · rcases category with _ | c
    · rcases featured with _ | b <;> simp [build_filter, Doc.lookupField]
    · by_cases hc : c = "" <;>
        rcases featured with _ | b <;>
          simp [build_filter, Doc.lookupField, hc]

/-- Claim C8: `GET /test` never fails hard — for every store state the
route answers 200; a collection-listing error shows up only as a
truncated descriptive string in the `database` field; the reported
collections list never exceeds 10 names. -/
theorem C8_test_never_fails (env : TestEnv) :
    test_route env = .ok 200 (test_database env) ∧
    (test_database env).collectionsField.length ≤ 10 ∧
    (∀ m, env.listCollFail = some m → env.available = true →
      (test_database env).database =
        "⚠️  Connected but Error: " ++ m.take 50 ∧
      (test_database env).collectionsField = []) := by
  refine ⟨rfl, ?_, ?_⟩
  · rcases hav : env.available
    · simp [test_database, hav]
    · rcases hf : env.listCollFail with _ | m
      · simp only [test_database, hav, hf]
        simp
      · simp [test_database, hav, hf]
  · intro m hm hav
    simp [test_database, hav, hm]

/-- Witness for C8 at an environment whose collection listing raises a
long error message. -/
theorem C8_test_never_fails_witness :
    (test_database testEnvErr).database =
      "⚠️  Connected but Error: " ++
        (String.mk (List.replicate 80 'x')).take 50 ∧
    (test_database testEnvErr).collectionsField = [] :=
  (C8_test_never_fails testEnvErr).2.2 (String.mk (List.replicate 80 'x'))
    rfl rfl

theorem toJson_no_id (m : MenuItem) :
    Doc.lookupField (MenuItem.toJson m) "_id" = none := rfl

/-- Claim C6: no document of a successful `GET /api/menu` response
contains the internal store identifier — `_id` is stripped before
validation and the serialized `MenuItem` shape has no such field. -/
theorem C6_no_internal_id (env : Env) (category : Option String)
    (featured : Option Bool) (limit : Option ℕ) (status : ℕ)
    (out : List Doc)
    (h : list_menu env category featured limit = .ok status out) :
    ∀ d ∈ out, Doc.lookupField d "_id" = none := by
  unfold list_menu at h
  split at h
  · simp at h
  · split at h
    · simp at h
    · dsimp only at h
      split at h
      · simp at h
      · injection h with h1 h2
        subst h2
        intro d hd
        simp only [List.mem_map] at hd
        obtain ⟨m, _, rfl⟩ := hd
        exact toJson_no_id m

/-- The stripped, validated and re-serialized response for the store
state `oneItemDB`. -/
def strippedOut : List Doc :=
  [ [("name", Value.str "Test"), ("description", Value.null),
     ("price", Value.num 1), ("category", Value.str "Test"),
     ("image", Value.null), ("is_featured", Value.boolean false),
     ("calories", Value.null), ("spicy_level", Value.null)] ]

/-- Witness for C6 on a concrete successful listing. -/
theorem C6_no_internal_id_witness :
    Doc.lookupField
      [("name", Value.str "Test"), ("description", Value.null),
       ("price", Value.num 1), ("category", Value.str "Test"),
       ("image", Value.null), ("is_featured", Value.boolean false),
       ("calories", Value.null), ("spicy_level", Value.null)] "_id" = none :=
  C6_no_internal_id oneItemEnv none none none 200 strippedOut rfl _
    (by simp [strippedOut])

/-- Claim C4: a `POST /api/menu` body lacking the required `price`
field is rejected by schema validation with a client-error status
before the handler body runs, and the store state is unchanged. -/
theorem C4_missing_price_rejected (env : Env) (body : Doc)
    (h : Doc.lookupField body "price" = none) :
    (route_create_menu_item env body).1 = .httpError 422 "validation error" ∧
    (route_create_menu_item env body).2 = env.db := by
  have hv : validate_create body = none := by
    unfold validate_create
    rw [h]
    cases parseStr (Doc.lookupField body "name") <;>
      cases parseOptStr (Doc.lookupField body "description") <;> rfl
  constructor <;> simp [route_create_menu_item, hv]

/-- Witness for C4 at the concrete body missing `price`. -/
theorem C4_missing_price_rejected_witness :
    (route_create_menu_item freshEnv noPriceBody).1 =
      .httpError 422 "validation error" ∧
    (route_create_menu_item freshEnv noPriceBody).2 = freshEnv.db :=
  C4_missing_price_rejected freshEnv noPriceBody rfl

/-- Counterexample to claim C3 as stated: with the store's query
operation raising "boom", `GET /api/menu` does not answer HTTP 500
with that detail — `list_menu` has no `try` around `get_documents`,
so the error escapes the handler uncaught. -/
theorem C3_uncaught_counterexample :
    list_menu allFailEnv none none none = .uncaught "boom" ∧
    list_menu allFailEnv none none none ≠ .httpError 500 "boom" := by
  exact ⟨rfl, by decide⟩

theorem insertAll_some_ne_nil (m : String) (docs : List Doc) (db : DB)
    (h : docs ≠ []) : insertAll (some m) docs db = .raised m := by
  cases docs with
  | nil => exact absurd rfl h
  | cons d rest => rfl

/-- Claim C3 (amended): only `POST /api/menu` catches store errors at
the handler boundary and surfaces them as HTTP 500 with the error's
text; store errors during `GET /api/menu` and `POST /api/menu/seed` —
the seed route's counting as well as its inserting — escape the
handler uncaught. -/
theorem C3_store_error_boundary (env : Env) (m : String)
    (item : MenuItemCreate) (category : Option String)
    (featured : Option Bool) (limit : Option ℕ)
    (hav : env.available = true) :
    (env.createFail = some m →
      create_menu_item env item = (.httpError 500 m, env.db)) ∧
    (env.getFail = some m →
      list_menu env category featured limit = .uncaught m) ∧
    (env.countFail = some m → seed_menu env = (.uncaught m, env.db)) ∧
    (env.countFail = none → count_documents env.db "menuitem" = 0 →
      env.createFail = some m → seed_menu env = (.uncaught m, env.db)) := by
  refine ⟨?_, ?_, ?_, ?_⟩
  · intro hf
    simp [create_menu_item, Env.createDocument, hav, hf]
  · intro hf
    simp [list_menu, Env.getDocuments, hav, hf]
  · intro hf
    simp [seed_menu, Env.countDocuments, hav, hf]
  · intro hc hzero hcr
    simp [seed_menu, Env.countDocuments, hav, hc, hzero, hcr,
      insertAll_some_ne_nil m seedSamples env.db (by simp [seedSamples])]

/-- Witness for C3: the all-failing environment exercises the caught
create error, the uncaught query error and the uncaught count error;
the insert-failing environment over the empty store exercises the
uncaught seed-insert error. -/
theorem C3_store_error_boundary_witness :
    create_menu_item allFailEnv sampleItem =
      (.httpError 500 "boom", allFailEnv.db) ∧
    list_menu allFailEnv none none none = .uncaught "boom" ∧
    seed_menu allFailEnv = (.uncaught "boom", allFailEnv.db) ∧
    seed_menu insertFailEnv = (.uncaught "boom", insertFailEnv.db) :=
  ⟨(C3_store_error_boundary allFailEnv "boom" sampleItem none none none
      rfl).1 rfl,
   (C3_store_error_boundary allFailEnv "boom" sampleItem none none none
      rfl).2.1 rfl,
   (C3_store_error_boundary allFailEnv "boom" sampleItem none none none
      rfl).2.2.1 rfl,
   (C3_store_error_boundary insertFailEnv "boom" sampleItem none none none
      rfl).2.2.2 rfl rfl rfl⟩

/-- Claim C1: `POST /api/menu/seed` is idempotent by count — with at
least one existing record it inserts nothing and answers status
"exists" with the existing count; with an empty collection it inserts
exactly the six fixed samples (spanning categories Burgers, Chicken,
Sides, Desserts, Drinks) and answers status "seeded" with count 6. -/
theorem C1_seed_idempotent_by_count (env : Env)
    (hav : env.available = true) (hc : env.countFail = none)
    (hcr : env.createFail = none) :
    (0 < count_documents env.db "menuitem" →
      seed_menu env =
        (.ok 200 [("status", Value.str "exists"),
                  ("count", Value.num (count_documents env.db "menuitem"))],
         env.db)) ∧
    (count_documents env.db "menuitem" = 0 →
      (seed_menu env).1 =
        .ok 200 [("status", Value.str "seeded"), ("count", Value.num 6)] ∧
      count_documents (seed_menu env).2 "menuitem" = 6 ∧
      ((seed_menu env).2.coll "menuitem").map
          (fun d => Doc.lookupField d "category") =
        [some (Value.str "Burgers"), some (Value.str "Chicken"),
         some (Value.str "Sides"), some (Value.str "Chicken"),
         some (Value.str "Desserts"), some (Value.str "Drinks")]) := by
  obtain ⟨av, db, gf, cf, ctf⟩ := env
  simp only at hav hc hcr
  subst hav
  subst hc
  subst hcr
  constructor
  · intro hpos
    simp [seed_menu, Env.countDocuments, hpos]
  · intro hzero
    have hcoll : DB.coll db "menuitem" = [] :=
      List.length_eq_zero.mp hzero
    obtain ⟨db2, h1, h2⟩ := insertAll_none_coll seedSamples db
    have hlen : ((seedSamples.length : ℕ) : ℚ) = 6 := by
      norm_num [seedSamples]
    have hseed : seed_menu ⟨true, db, gf, none, none⟩ =
        (.ok 200 [("status", Value.str "seeded"), ("count", Value.num 6)],
         db2) := by
      simp [seed_menu, Env.countDocuments, hzero, h1, hlen]
    rw [hseed]
    refine ⟨rfl, ?_, ?_⟩
    · show (DB.coll db2 "menuitem").length = 6
      rw [h2, hcoll, List.nil_append, stampIds_length]
      rfl
    · rw [h2, hcoll, List.nil_append,
        stampIds_lookup seedSamples db.nextId "category" (by decide)]
      rfl

/-- Witness for C1: seeding the empty store inserts the six samples. -/
theorem C1_seed_idempotent_by_count_witness :
    (seed_menu freshEnv).1 =
      .ok 200 [("status", Value.str "seeded"), ("count", Value.num 6)] ∧
    count_documents (seed_menu freshEnv).2 "menuitem" = 6 ∧
    ((seed_menu freshEnv).2.coll "menuitem").map
        (fun d => Doc.lookupField d "category") =
      [some (Value.str "Burgers"), some (Value.str "Chicken"),
       some (Value.str "Sides"), some (Value.str "Chicken"),
       some (Value.str "Desserts"), some (Value.str "Drinks")] :=
  (C1_seed_idempotent_by_count freshEnv rfl rfl rfl).2 rfl

/-- Claim C5: every valid `POST /api/menu` body (store available,
insert succeeding) is answered 201 with `{"id": <the new
identifier>}` and the validated item's document is inserted; when the
body additionally omits `is_featured`, the validated item and the
inserted record carry `is_featured = false`. -/
theorem C5_create_returns_id (env : Env) (body : Doc)
    (it : MenuItemCreate)
    (hav : env.available = true) (hcr : env.createFail = none)
    (hv : validate_create body = some it) :
    (route_create_menu_item env body).1 =
      .ok 201 [("id", Value.str (toString env.db.nextId))] ∧
    (route_create_menu_item env body).2.coll "menuitem" =
      env.db.coll "menuitem" ++
        [("_id", Value.str (toString env.db.nextId)) :: it.toDoc] ∧
    (Doc.lookupField body "is_featured" = none →
      it.is_featured = false ∧
      Doc.lookupField it.toDoc "is_featured" = some (Value.boolean false)) := by
  have hroute : route_create_menu_item env body =
      (.ok 201 [("id", Value.str (toString env.db.nextId))],
       (create_document env.db "menuitem" it.toDoc).2) := by
    simp [route_create_menu_item, create_menu_item, Env.createDocument,
      hv, hav, hcr, create_document]
  refine ⟨by rw [hroute], ?_, ?_⟩
  · rw [hroute]
    exact create_document_coll env.db "menuitem" it.toDoc
  · intro hbf
    have hfeat : it.is_featured = false := by
      unfold validate_create at hv
      rw [hbf] at hv
      simp only [parseBoolDefault, Option.bind_eq_bind, Option.bind_eq_some,
        Option.pure_def, Option.some.injEq] at hv
      obtain ⟨name, h1, d2, h2, pr, h3, cat, h4, img, h5, ft, h6, cal, h7,
        sp, h8, h9⟩ := hv
      subst h6
      subst h9
      rfl
    exact ⟨hfeat, by simp [MenuItemCreate.toDoc, Doc.lookupField, hfeat]⟩

/-- Witness for C5 at the concrete body of spec section 8 (which omits
`is_featured`): the implication of the third conjunct is discharged. -/
theorem C5_create_returns_id_witness :
    (route_create_menu_item freshEnv sampleBody).1 =
      .ok 201 [("id", Value.str (toString freshEnv.db.nextId))] ∧
    (route_create_menu_item freshEnv sampleBody).2.coll "menuitem" =
      freshEnv.db.coll "menuitem" ++
        [("_id", Value.str (toString freshEnv.db.nextId)) ::
          sampleItem.toDoc] ∧
    sampleItem.is_featured = false ∧
    Doc.lookupField sampleItem.toDoc "is_featured" =
      some (Value.boolean false) :=
  ⟨(C5_create_returns_id freshEnv sampleBody sampleItem rfl rfl rfl).1,
   (C5_create_returns_id freshEnv sampleBody sampleItem rfl rfl rfl).2.1,
   (C5_create_returns_id freshEnv sampleBody sampleItem rfl rfl rfl).2.2 rfl⟩

/-- Counterexample to claim C9 as stated: the body with `price = -1`
passes validation, is accepted with 201, and a record is inserted —
`MenuItemCreate` declares `price: float` with no non-negativity
constraint. -/
theorem C9_negative_price_counterexample :
    (validate_create (mkPriceBody (-1))).isSome = true ∧
    (route_create_menu_item freshEnv (mkPriceBody (-1))).1 =
      .ok 201 [("id", Value.str "0")] ∧
    (route_create_menu_item freshEnv (mkPriceBody (-1))).2 ≠ freshEnv.db ∧
    (-1 : ℚ) < 0 := by
  refine ⟨rfl, rfl, by decide, by norm_num⟩

/-- The item a creation body with price `q` validates to. -/
def mkItem (q : ℚ) : MenuItemCreate :=
  { name := "Test", price := q, category := "Test" }

/-- Claim C9 (amended): `price` is required and numeric, but no sign
constraint is enforced — a body with a negative price passes
validation unchanged, is answered with 201, and a record holding that
negative price is inserted. -/
theorem C9_negative_price_accepted (env : Env) (q : ℚ)
    (hav : env.available = true) (hcr : env.createFail = none)
    (_hq : q < 0) :
    validate_create (mkPriceBody q) = some (mkItem q) ∧
    (route_create_menu_item env (mkPriceBody q)).1 =
      .ok 201 [("id", Value.str (toString env.db.nextId))] ∧
    (route_create_menu_item env (mkPriceBody q)).2.coll "menuitem" =
      env.db.coll "menuitem" ++
        [("_id", Value.str (toString env.db.nextId)) ::
          (mkItem q).toDoc] := by
  have hv : validate_create (mkPriceBody q) = some (mkItem q) := rfl
  have hroute : route_create_menu_item env (mkPriceBody q) =
      (.ok 201 [("id", Value.str (toString env.db.nextId))],
       (create_document env.db "menuitem" (mkItem q).toDoc).2) := by
    simp [route_create_menu_item, create_menu_item, Env.createDocument,
      hv, hav, hcr, create_document]
  rw [hroute]
  exact ⟨hv, rfl, create_document_coll env.db "menuitem" (mkItem q).toDoc⟩

/-- Witness for the amended C9 at `price = -1` over the fresh store. -/
theorem C9_negative_price_accepted_witness :
    validate_create (mkPriceBody (-1)) = some (mkItem (-1)) ∧
    (route_create_menu_item freshEnv (mkPriceBody (-1))).1 =
      .ok 201 [("id", Value.str (toString freshEnv.db.nextId))] ∧
    (route_create_menu_item freshEnv (mkPriceBody (-1))).2.coll "menuitem" =
      freshEnv.db.coll "menuitem" ++
        [("_id", Value.str (toString freshEnv.db.nextId)) ::
          (mkItem (-1)).toDoc] :=
  C9_negative_price_accepted freshEnv (-1) rfl rfl (by norm_num)

end McMenu
